import Mathlib

/-!
# SENTINEL reconciliation engine — verification development

Shallow embedding of `src/sentinel_core.py` (pandas-based financial
reconciliation) and proofs about it.

Modelling conventions:
* A dataframe column that can hold NaN (a missing CSV cell, or a column
  introduced by an unmatched left join) is modelled as `Option _`.
  In particular the `txn_id` join key is `Option String`, since a CSV row
  may lack its identifier; pandas `merge` matches NaN keys to NaN keys,
  which `Option.beq` (`none == none = true`) reproduces.
* Monetary amounts are modelled as exact rationals `ℚ` in the
  reconciliation pipeline; the IEEE-754 binary64 representation that
  pandas actually uses for these columns is modelled separately below
  (`f64OfRat`, `f64Sub`) where the claim is about rounding itself.
* `pd.merge(sales_df, bank_df, on='txn_id', how='left')` emits, for every
  sales row in order, one merged row per matching bank row (in bank
  order), or a single row with null bank fields when no bank row matches.
-/

/-- A row of `sales_log.csv` (columns `txn_id, client, billed_amount, timestamp`). -/
structure SalesRow where
  txn_id : Option String
  client : String
  billed_amount : ℚ
  timestamp : String
  deriving DecidableEq, Repr

/-- A row of `bank_feed.csv` (columns `txn_id, bank_ref, received_amount, settled_date`). -/
structure BankRow where
  txn_id : Option String
  bank_ref : Option String
  received_amount : ℚ
  settled_date : String
  deriving DecidableEq, Repr

/-- A row of the left-joined dataframe `merged`: sales columns plus bank
columns, the latter null when the sales row found no bank match. -/
structure MergedRow where
  txn_id : Option String
  client : String
  billed_amount : ℚ
  timestamp : String
  bank_ref : Option String
  received_amount : Option ℚ
  settled_date : Option String
  deriving DecidableEq, Repr

/-- The bank rows whose `txn_id` equals the given sales row's `txn_id`,
in bank-feed order (the right-hand matches of the pandas merge). -/
def bankMatches (bank : List BankRow) (s : SalesRow) : List BankRow :=
  bank.filter (fun b => b.txn_id == s.txn_id)

/-- The merged row produced when sales row `s` joins bank row `b`. -/
def mergeRow (s : SalesRow) (b : BankRow) : MergedRow :=
  ⟨s.txn_id, s.client, s.billed_amount, s.timestamp,
    b.bank_ref, some b.received_amount, some b.settled_date⟩

/-- The merged row produced when sales row `s` finds no bank match:
all bank-side columns are NaN. -/
def unmatchedRow (s : SalesRow) : MergedRow :=
  ⟨s.txn_id, s.client, s.billed_amount, s.timestamp, none, none, none⟩

/-- The block of merged rows a single sales row contributes to the left join. -/
def rowMerged (bank : List BankRow) (s : SalesRow) : List MergedRow :=
  match bankMatches bank s with
  | [] => [unmatchedRow s]
  | bs => bs.map (mergeRow s)

/-- `pd.merge(sales_df, bank_df, on='txn_id', how='left', suffixes=('_sales','_bank'))`
(sentinel_core.py lines 98–104): every sales row in order, fanned out over
its bank matches. -/
def mergeLeft : List SalesRow → List BankRow → List MergedRow
  | [], _ => []
  | s :: rest, bank => rowMerged bank s ++ mergeLeft rest bank

/-- `missing_payments = merged[merged['bank_ref'].isna()]` (line 107). -/
def missing_payments (sales : List SalesRow) (bank : List BankRow) : List MergedRow :=
  (mergeLeft sales bank).filter (fun r => r.bank_ref.isNone)

/-- The `variance` column added to `matched_records` (line 121):
`billed_amount - received_amount`. For matched rows `received_amount`
is always `some`, so the `getD` default is never reached. -/
def rowVariance (r : MergedRow) : ℚ :=
  r.billed_amount - r.received_amount.getD 0

/-- `matched_records = merged[merged['bank_ref'].notna()]` with its
`variance` column (lines 120–121), each row paired with its variance. -/
def matched_records (sales : List SalesRow) (bank : List BankRow) :
    List (MergedRow × ℚ) :=
  ((mergeLeft sales bank).filter (fun r => r.bank_ref.isSome)).map
    (fun r => (r, rowVariance r))

/-- `variance_records = matched_records[matched_records['variance'] != 0]` (line 122). -/
def variance_records (sales : List SalesRow) (bank : List BankRow) :
    List (MergedRow × ℚ) :=
  (matched_records sales bank).filter (fun p => decide (p.2 ≠ 0))

/-- `perfect_matches = matched_records[matched_records['variance'] == 0]` (line 136);
its length is the reconciled-successfully count the engine reports. -/
def perfect_matches (sales : List SalesRow) (bank : List BankRow) :
    List (MergedRow × ℚ) :=
  (matched_records sales bank).filter (fun p => decide (p.2 = 0))

/-- `detect_anomalies(sales_df, bank_df)` (lines 86–139): returns
`(missing_payments, variance_records)`. -/
def detect_anomalies (sales : List SalesRow) (bank : List BankRow) :
    List MergedRow × List (MergedRow × ℚ) :=
  (missing_payments sales bank, variance_records sales bank)

-- Sanity checks on the generate_mock_data.py scenario fragments.
example :
    detect_anomalies [⟨some "TXN-1005", "Phantom LLC", 7200, "t5"⟩] [] =
      ([⟨some "TXN-1005", "Phantom LLC", 7200, "t5", none, none, none⟩], []) := by
  decide

example :
    detect_anomalies [⟨some "TXN-1003", "Beta Industries", 5000, "t3"⟩]
        [⟨some "TXN-1003", some "BNK-REF-A003", 4500, "d3"⟩] =
      ([], [(⟨some "TXN-1003", "Beta Industries", 5000, "t3",
              some "BNK-REF-A003", some 4500, some "d3"⟩, 500)]) := by
  simp [detect_anomalies, missing_payments, variance_records, matched_records,
    mergeLeft, rowMerged, bankMatches, mergeRow, unmatchedRow, rowVariance]
  norm_num

example :
    (perfect_matches [⟨some "TXN-1008", "Control Co", 6000, "t8"⟩]
      [⟨some "TXN-1008", some "BNK-REF-A008", 6000, "d8"⟩]).length = 1 := by
  simp [perfect_matches, matched_records, mergeLeft, rowMerged, bankMatches,
    mergeRow, rowVariance]

/-! ## General lemmas about the pipeline -/

theorem mergeLeft_append (s₁ s₂ : List SalesRow) (bank : List BankRow) :
    mergeLeft (s₁ ++ s₂) bank = mergeLeft s₁ bank ++ mergeLeft s₂ bank := by
  induction s₁ with
  | nil => rfl
  | cons s rest ih => simp [mergeLeft, ih]

theorem length_filter_add_length_filter_not {α : Type} (l : List α) (p : α → Bool) :
    (l.filter p).length + (l.filter (fun x => !(p x))).length = l.length := by
  induction l with
  | nil => rfl
  | cons x xs ih => cases h : p x <;> simp [List.filter_cons, h] <;> omega

theorem bankMatches_cons (b : BankRow) (rest : List BankRow) (s : SalesRow) :
    bankMatches (b :: rest) s =
      if b.txn_id == s.txn_id then b :: bankMatches rest s else bankMatches rest s := by
  simp [bankMatches, List.filter_cons]

theorem mem_bank_of_mem_bankMatches {bank : List BankRow} {s : SalesRow} {b : BankRow}
    (h : b ∈ bankMatches bank s) : b ∈ bank :=
  List.mem_of_mem_filter h

theorem txn_id_eq_of_mem_bankMatches {bank : List BankRow} {s : SalesRow} {b : BankRow}
    (h : b ∈ bankMatches bank s) : b.txn_id = s.txn_id := by
  have := List.of_mem_filter h
  exact eq_of_beq this

theorem bankMatches_eq_nil_of_not_mem (bank : List BankRow) (s : SalesRow)
    (h : s.txn_id ∉ bank.map (fun b => b.txn_id)) : bankMatches bank s = [] := by
  induction bank with
  | nil => rfl
  | cons b rest ih =>
    simp only [List.map_cons, List.mem_cons] at h
    push_neg at h
    have hne : (b.txn_id == s.txn_id) = false := by
      simp [beq_eq_false_iff_ne]
      exact fun hc => h.1 hc.symm
    rw [bankMatches_cons, hne]
    simpa using ih h.2

theorem bankMatches_length_le_one {bank : List BankRow}
    (hb : (bank.map (fun b => b.txn_id)).Nodup) (s : SalesRow) :
    (bankMatches bank s).length ≤ 1 := by
  induction bank with
  | nil => simp [bankMatches]
  | cons b rest ih =>
    rw [List.map_cons, List.nodup_cons] at hb
    rw [bankMatches_cons]
    by_cases h : (b.txn_id == s.txn_id) = true
    · rw [if_pos h]
      have hid : b.txn_id = s.txn_id := eq_of_beq h
      have : bankMatches rest s = [] := by
        apply bankMatches_eq_nil_of_not_mem
        rw [← hid]
        exact hb.1
      simp [this]
    · rw [if_neg h]
      exact ih hb.2

theorem rowMerged_length_eq_one {bank : List BankRow}
    (hb : (bank.map (fun b => b.txn_id)).Nodup) (s : SalesRow) :
    (rowMerged bank s).length = 1 := by
  have hle := bankMatches_length_le_one hb s
  unfold rowMerged
  rcases hm : bankMatches bank s with _ | ⟨b, _ | ⟨b₂, bs⟩⟩
  · rfl
  · rfl
  · rw [hm] at hle
    simp at hle

theorem mergeLeft_length {bank : List BankRow}
    (hb : (bank.map (fun b => b.txn_id)).Nodup) (sales : List SalesRow) :
    (mergeLeft sales bank).length = sales.length := by
  induction sales with
  | nil => rfl
  | cons s rest ih =>
    simp [mergeLeft, rowMerged_length_eq_one hb, ih, Nat.add_comm]

theorem length_missing_add_matched (sales : List SalesRow) (bank : List BankRow) :
    (missing_payments sales bank).length + (matched_records sales bank).length
      = (mergeLeft sales bank).length := by
  have h := length_filter_add_length_filter_not (mergeLeft sales bank)
    (fun r => r.bank_ref.isNone)
  have hcongr : (mergeLeft sales bank).filter (fun r => !(r.bank_ref.isNone))
      = (mergeLeft sales bank).filter (fun r => r.bank_ref.isSome) := by
    apply List.filter_congr
    intro r _
    cases hr : r.bank_ref <;> rfl
  unfold missing_payments matched_records
  rw [List.length_map, ← hcongr]
  exact h

theorem length_var_add_perfect (sales : List SalesRow) (bank : List BankRow) :
    (variance_records sales bank).length + (perfect_matches sales bank).length
      = (matched_records sales bank).length := by
  have h := length_filter_add_length_filter_not (matched_records sales bank)
    (fun p => decide (p.2 ≠ 0))
  have hcongr : (matched_records sales bank).filter (fun p => !(decide (p.2 ≠ 0)))
      = (matched_records sales bank).filter (fun p => decide (p.2 = 0)) := by
    apply List.filter_congr
    intro p _
    simp [decide_not]
  unfold variance_records perfect_matches
  rw [← hcongr]
  exact h

/-- C1 (amended): when the settlement transaction ids are pairwise distinct —
the spec's "keys unique by contract" — `detect_anomalies` classifies every
billed record into exactly one of missing, variance, matched, so
`|missing| + |variances| + matchedCount = |billed|`. (Without the
distinctness hypothesis the pandas left merge fans duplicate settlement ids
out into several classified rows per billed record, see the counterexample.) -/
theorem detect_anomalies_partition (sales : List SalesRow) (bank : List BankRow)
    (hb : (bank.map (fun b => b.txn_id)).Nodup) :
    (missing_payments sales bank).length + (variance_records sales bank).length
      + (perfect_matches sales bank).length = sales.length := by
  have h1 := length_missing_add_matched sales bank
  have h2 := length_var_add_perfect sales bank
  have h3 := mergeLeft_length hb sales
  omega

/-- C1 counterexample: with two settlement records sharing one transaction id,
the single billed record is classified twice (once as a perfect match, once as
a variance), so `|missing| + |variances| + matchedCount = 2 ≠ 1 = |billed|`. -/
theorem detect_anomalies_partition_fails_on_duplicate_ids :
    ¬ ((missing_payments [⟨some "TXN-2001", "Acme Corp", 100, "t1"⟩]
          [⟨some "TXN-2001", some "REF-A", 100, "d1"⟩,
           ⟨some "TXN-2001", some "REF-B", 60, "d2"⟩]).length
        + (variance_records [⟨some "TXN-2001", "Acme Corp", 100, "t1"⟩]
          [⟨some "TXN-2001", some "REF-A", 100, "d1"⟩,
           ⟨some "TXN-2001", some "REF-B", 60, "d2"⟩]).length
        + (perfect_matches [⟨some "TXN-2001", "Acme Corp", 100, "t1"⟩]
          [⟨some "TXN-2001", some "REF-A", 100, "d1"⟩,
           ⟨some "TXN-2001", some "REF-B", 60, "d2"⟩]).length
        = ([⟨some "TXN-2001", "Acme Corp", 100, "t1"⟩] : List SalesRow).length) := by
  simp [missing_payments, variance_records, perfect_matches, matched_records,
    mergeLeft, rowMerged, bankMatches, mergeRow, rowVariance]
  norm_num

/-- Witness for C1's theorem at the mock-data scenario (one missing, one
variance, one perfect match out of three billed records). -/
theorem detect_anomalies_partition_witness :
    (missing_payments
        [⟨some "TXN-1001", "Acme Corp", 12000, "t1"⟩,
         ⟨some "TXN-1003", "Beta Industries", 5000, "t3"⟩,
         ⟨some "TXN-1005", "Phantom LLC", 7200, "t5"⟩]
        [⟨some "TXN-1001", some "BNK-REF-A001", 12000, "d1"⟩,
         ⟨some "TXN-1003", some "BNK-REF-A003", 4500, "d3"⟩]).length
      + (variance_records
        [⟨some "TXN-1001", "Acme Corp", 12000, "t1"⟩,
         ⟨some "TXN-1003", "Beta Industries", 5000, "t3"⟩,
         ⟨some "TXN-1005", "Phantom LLC", 7200, "t5"⟩]
        [⟨some "TXN-1001", some "BNK-REF-A001", 12000, "d1"⟩,
         ⟨some "TXN-1003", some "BNK-REF-A003", 4500, "d3"⟩]).length
      + (perfect_matches
        [⟨some "TXN-1001", "Acme Corp", 12000, "t1"⟩,
         ⟨some "TXN-1003", "Beta Industries", 5000, "t3"⟩,
         ⟨some "TXN-1005", "Phantom LLC", 7200, "t5"⟩]
        [⟨some "TXN-1001", some "BNK-REF-A001", 12000, "d1"⟩,
         ⟨some "TXN-1003", some "BNK-REF-A003", 4500, "d3"⟩]).length
      = 3 :=
  detect_anomalies_partition
    [⟨some "TXN-1001", "Acme Corp", 12000, "t1"⟩,
     ⟨some "TXN-1003", "Beta Industries", 5000, "t3"⟩,
     ⟨some "TXN-1005", "Phantom LLC", 7200, "t5"⟩]
    [⟨some "TXN-1001", some "BNK-REF-A001", 12000, "d1"⟩,
     ⟨some "TXN-1003", some "BNK-REF-A003", 4500, "d3"⟩]
    (by decide)

/-- C5: the `missing` and `variances` outputs each preserve the relative
order of the billed input: both commute with appending billed sequences, so
every entry derived from an earlier billed record precedes every entry
derived from a later one. -/
theorem outputs_preserve_billed_order (s₁ s₂ : List SalesRow) (bank : List BankRow) :
    missing_payments (s₁ ++ s₂) bank
        = missing_payments s₁ bank ++ missing_payments s₂ bank
    ∧ variance_records (s₁ ++ s₂) bank
        = variance_records s₁ bank ++ variance_records s₂ bank := by
  refine ⟨?_, ?_⟩
  · simp [missing_payments, mergeLeft_append, List.filter_append]
  · simp [variance_records, matched_records, mergeLeft_append, List.filter_append,
      List.map_append]

theorem missing_payments_cons (s : SalesRow) (rest : List SalesRow) (bank : List BankRow) :
    missing_payments (s :: rest) bank
      = (rowMerged bank s).filter (fun r => r.bank_ref.isNone)
          ++ missing_payments rest bank := by
  simp [missing_payments, mergeLeft, List.filter_append]

/-- C3 (amended): provided every settlement record carries a non-null bank
reference, a billed transaction is classified Missing exactly when no
settlement record with the same (null-joined) transaction id exists: the
`missing` output is precisely the billed records without a bank match,
in order, rendered with null bank columns. A settlement whose `bank_ref`
cell is null instead sends its billed record to `missing` even though a
settlement with the same id exists (see the counterexample). -/
theorem missing_iff_no_settlement (sales : List SalesRow) (bank : List BankRow)
    (h : ∀ b ∈ bank, b.bank_ref.isSome = true) :
    missing_payments sales bank
      = (sales.filter (fun s => (bankMatches bank s).isEmpty)).map unmatchedRow := by
  induction sales with
  | nil => rfl
  | cons s rest ih =>
    rw [missing_payments_cons]
    rcases hm : bankMatches bank s with _ | ⟨b, bs⟩
    · simp [rowMerged, hm, List.filter_cons, unmatchedRow, ih]
    · have hnil : ((b :: bs).map (mergeRow s)).filter (fun r => r.bank_ref.isNone) = [] := by
        apply List.filter_eq_nil_iff.2
        intro r hr
        rcases List.mem_map.1 hr with ⟨b', hb', rfl⟩
        have hbank : b' ∈ bank := mem_bank_of_mem_bankMatches (s := s) (by rw [hm]; exact hb')
        rcases Option.isSome_iff_exists.1 (h b' hbank) with ⟨v, hv⟩
        simp [mergeRow, hv]
      have hrm : rowMerged bank s = (b :: bs).map (mergeRow s) := by
        unfold rowMerged
        rw [hm]
      have hie : (bankMatches bank s).isEmpty = false := by rw [hm]; rfl
      rw [hrm, hnil, List.nil_append, ih]
      simp [List.filter_cons, hie]

/-- C3 counterexample: a settlement record with the billed transaction's id
but a null `bank_ref` cell exists, yet the billed record is classified
Missing — classification tests `bank_ref` nullness, not id existence. -/
theorem missing_despite_settlement_with_same_id :
    missing_payments [⟨some "TXN-3001", "Acme Corp", 250, "t1"⟩]
        [⟨some "TXN-3001", none, 250, "d1"⟩]
      = [⟨some "TXN-3001", "Acme Corp", 250, "t1", none, some 250, some "d1"⟩]
    ∧ (⟨some "TXN-3001", none, 250, "d1"⟩ : BankRow).txn_id
        = (⟨some "TXN-3001", "Acme Corp", 250, "t1"⟩ : SalesRow).txn_id := by
  constructor
  · decide
  · rfl

/-- Witness for C3's amended theorem: with non-null bank references, the
unmatched billed record TXN-1005 (and only it) lands in `missing`. -/
theorem missing_iff_no_settlement_witness :
    missing_payments
        [⟨some "TXN-1001", "Acme Corp", 12000, "t1"⟩,
         ⟨some "TXN-1005", "Phantom LLC", 7200, "t5"⟩]
        [⟨some "TXN-1001", some "BNK-REF-A001", 12000, "d1"⟩]
      = [⟨some "TXN-1005", "Phantom LLC", 7200, "t5", none, none, none⟩] :=
  (missing_iff_no_settlement
    [⟨some "TXN-1001", "Acme Corp", 12000, "t1"⟩,
     ⟨some "TXN-1005", "Phantom LLC", 7200, "t5"⟩]
    [⟨some "TXN-1001", some "BNK-REF-A001", 12000, "d1"⟩]
    (by decide)).trans (by decide)

theorem received_isSome_of_matched {sales : List SalesRow} {bank : List BankRow}
    {r : MergedRow} (hr : r ∈ mergeLeft sales bank) (hs : r.bank_ref.isSome = true) :
    ∃ v, r.received_amount = some v := by
  induction sales with
  | nil => simp [mergeLeft] at hr
  | cons s rest ih =>
    rw [mergeLeft] at hr
    rcases List.mem_append.1 hr with hr | hr
    · unfold rowMerged at hr
      rcases hm : bankMatches bank s with _ | ⟨b, bs⟩
      · rw [hm] at hr
        simp only [List.mem_singleton] at hr
        subst hr
        simp [unmatchedRow] at hs
      · rw [hm] at hr
        rcases List.mem_map.1 hr with ⟨b', _, rfl⟩
        exact ⟨b'.received_amount, rfl⟩
    · exact ih hr

/-- C4: a record appears in `variance_records` exactly when it is a matched
record whose computed variance is nonzero; every variance entry carries the
signed variance `billed_amount − received_amount` of its row; and every
matched record with variance zero is counted in `perfect_matches` (the
matched count) instead. -/
theorem variance_records_iff_nonzero (sales : List SalesRow) (bank : List BankRow)
    (p : MergedRow × ℚ) :
    (p ∈ variance_records sales bank ↔ p ∈ matched_records sales bank ∧ p.2 ≠ 0)
    ∧ (p ∈ variance_records sales bank →
        ∃ r, p.1.received_amount = some r ∧ p.2 = p.1.billed_amount - r)
    ∧ (p ∈ matched_records sales bank → p.2 = 0 → p ∈ perfect_matches sales bank) := by
  refine ⟨?_, ?_, ?_⟩
  · constructor
    · intro hp
      have := List.mem_filter.1 hp
      exact ⟨this.1, by simpa using this.2⟩
    · intro ⟨hm, hz⟩
      exact List.mem_filter.2 ⟨hm, by simpa using hz⟩
  · intro hp
    have hm : p ∈ matched_records sales bank := (List.mem_filter.1 hp).1
    rcases List.mem_map.1 hm with ⟨r, hr, rfl⟩
    have hsome : r.bank_ref.isSome = true := (List.mem_filter.1 hr).2
    have hmem : r ∈ mergeLeft sales bank := List.mem_of_mem_filter hr
    rcases received_isSome_of_matched hmem hsome with ⟨v, hv⟩
    exact ⟨v, hv, by simp [rowVariance, hv]⟩
  · intro hm hz
    exact List.mem_filter.2 ⟨hm, by simpa using hz⟩

/-- Witness for C4's theorem: the mock variance scenario (billed 5000,
received 4500) produces a variance entry carrying 500. -/
theorem variance_records_iff_nonzero_witness :
    (⟨⟨some "TXN-1003", "Beta Industries", 5000, "t3",
        some "BNK-REF-A003", some 4500, some "d3"⟩, 500⟩ : MergedRow × ℚ)
      ∈ variance_records [⟨some "TXN-1003", "Beta Industries", 5000, "t3"⟩]
          [⟨some "TXN-1003", some "BNK-REF-A003", 4500, "d3"⟩] :=
  ((variance_records_iff_nonzero
      [⟨some "TXN-1003", "Beta Industries", 5000, "t3"⟩]
      [⟨some "TXN-1003", some "BNK-REF-A003", 4500, "d3"⟩]
      ⟨⟨some "TXN-1003", "Beta Industries", 5000, "t3",
        some "BNK-REF-A003", some 4500, some "d3"⟩, 500⟩).1).2
    ⟨by norm_num [matched_records, mergeLeft, rowMerged, bankMatches, mergeRow,
        rowVariance],
     by norm_num⟩

/-- C6 counterexample: with two settlement records for one transaction id,
the billed record is NOT resolved last-seen-wins (which would classify it
once, as a variance of 200 against the second record): it is classified
against both records, yielding one perfect match and one variance entry. -/
theorem last_seen_wins_fails :
    (perfect_matches [⟨some "TXN-4001", "Vortex Systems", 900, "t1"⟩]
        [⟨some "TXN-4001", some "REF-A", 900, "d1"⟩,
         ⟨some "TXN-4001", some "REF-B", 700, "d2"⟩]).length = 1
    ∧ (variance_records [⟨some "TXN-4001", "Vortex Systems", 900, "t1"⟩]
        [⟨some "TXN-4001", some "REF-A", 900, "d1"⟩,
         ⟨some "TXN-4001", some "REF-B", 700, "d2"⟩]).length = 1 := by
  constructor <;>
    norm_num [perfect_matches, variance_records, matched_records, mergeLeft,
      rowMerged, bankMatches, mergeRow, rowVariance]

/-- C6 (corrected): when several settlement records share a transaction id,
the pandas left merge matches the billed record against EVERY one of them,
in settlement order (a cross-product), classifying it once per duplicate —
not last-seen-wins. Stated for a single billed record with at least one
match and non-null bank references. -/
theorem duplicate_ids_fan_out (s : SalesRow) (bank : List BankRow)
    (h : ∀ b ∈ bank, b.bank_ref.isSome = true) (hne : bankMatches bank s ≠ []) :
    matched_records [s] bank
      = (bankMatches bank s).map
          (fun b => (mergeRow s b, s.billed_amount - b.received_amount)) := by
  rcases hm : bankMatches bank s with _ | ⟨b, bs⟩
  · exact absurd hm hne
  · have hrm : rowMerged bank s = (b :: bs).map (mergeRow s) := by
      unfold rowMerged
      rw [hm]
    have hall : ∀ r ∈ (b :: bs).map (mergeRow s), r.bank_ref.isSome = true := by
      intro r hr
      rcases List.mem_map.1 hr with ⟨b', hb', rfl⟩
      have hbb : b' ∈ bank := mem_bank_of_mem_bankMatches (s := s) (by rw [hm]; exact hb')
      simpa [mergeRow] using h b' hbb
    unfold matched_records
    rw [show mergeLeft [s] bank = rowMerged bank s from by simp [mergeLeft], hrm,
      List.filter_eq_self.2 hall, List.map_map]
    simp [Function.comp_def, rowVariance, mergeRow]

/-- Witness for C6's theorem: a billed record with two settlement duplicates
is classified against both, in settlement order. -/
theorem duplicate_ids_fan_out_witness :
    matched_records [⟨some "TXN-4002", "Delta Enterprises", 500, "t2"⟩]
        [⟨some "TXN-4002", some "REF-C", 450, "d1"⟩,
         ⟨some "TXN-4002", some "REF-D", 500, "d2"⟩]
      = [(⟨some "TXN-4002", "Delta Enterprises", 500, "t2",
            some "REF-C", some 450, some "d1"⟩, 50),
         (⟨some "TXN-4002", "Delta Enterprises", 500, "t2",
            some "REF-D", some 500, some "d2"⟩, 0)] :=
  (duplicate_ids_fan_out ⟨some "TXN-4002", "Delta Enterprises", 500, "t2"⟩
    [⟨some "TXN-4002", some "REF-C", 450, "d1"⟩,
     ⟨some "TXN-4002", some "REF-D", 500, "d2"⟩]
    (by decide) (by decide)).trans
    (by norm_num [bankMatches, mergeRow])

/-- C7 counterexample: `detect_anomalies` does not fail on a record lacking
its identifier — no `InvalidRecord` error exists anywhere in the engine.
A billed record with a null `txn_id` is processed like any other and a full
finding set is returned (here: the record is classified Missing). -/
theorem missing_identifier_yields_findings :
    detect_anomalies [⟨none, "Ghost Corp", 100, "t0"⟩] []
      = ([⟨none, "Ghost Corp", 100, "t0", none, none, none⟩], []) := by
  decide

/-- C7 (corrected): the engine never raises for any data content — it is a
total function — including for records missing their identifier field: a
billed record with a null `txn_id` does not abort the run; it joins on the
null key (matching no settlement when all settlements carry identifiers)
and is appended to `missing`, leaving all other findings unchanged. -/
theorem no_failure_on_missing_identifier (sales : List SalesRow) (bank : List BankRow)
    (s : SalesRow) (hs : s.txn_id = none) (hb : ∀ b ∈ bank, b.txn_id.isSome = true) :
    detect_anomalies (sales ++ [s]) bank
      = ((detect_anomalies sales bank).1 ++ [unmatchedRow s],
         (detect_anomalies sales bank).2) := by
  have hmatch : bankMatches bank s = [] := by
    apply List.filter_eq_nil_iff.2
    intro b hbmem
    rcases Option.isSome_iff_exists.1 (hb b hbmem) with ⟨v, hv⟩
    simp [hv, hs]
  have hrow : rowMerged bank s = [unmatchedRow s] := by
    unfold rowMerged
    rw [hmatch]
  unfold detect_anomalies missing_payments variance_records matched_records
  rw [mergeLeft_append,
    show mergeLeft [s] bank = rowMerged bank s from by simp [mergeLeft], hrow]
  simp [List.filter_append, unmatchedRow]

/-- Witness for C7's theorem: appending an identifier-less billed record to
a fully-matched ledger returns normally, with that record reported Missing. -/
theorem no_failure_on_missing_identifier_witness :
    detect_anomalies
        [⟨some "TXN-1001", "Acme Corp", 12000, "t1"⟩, ⟨none, "Ghost Corp", 100, "t9"⟩]
        [⟨some "TXN-1001", some "BNK-REF-A001", 12000, "d1"⟩]
      = ([⟨none, "Ghost Corp", 100, "t9", none, none, none⟩], []) :=
  (no_failure_on_missing_identifier
    [⟨some "TXN-1001", "Acme Corp", 12000, "t1"⟩]
    [⟨some "TXN-1001", some "BNK-REF-A001", 12000, "d1"⟩]
    ⟨none, "Ghost Corp", 100, "t9"⟩ rfl (by decide)).trans
    (by norm_num [detect_anomalies, missing_payments, variance_records,
      matched_records, mergeLeft, rowMerged, bankMatches, mergeRow, unmatchedRow,
      rowVariance])

/-- C9: for every merged row, `detect_anomalies` decides between Missing and
matched solely by nullness of the `bank_ref` column: every `missing` entry
has a null bank reference, every `variances` entry has a non-null one (so
the two outputs are disjoint), and a settlement sharing the billed id but
carrying a null bank reference sends the billed record to `missing`. -/
theorem classification_by_bank_ref_nullness (sales : List SalesRow) (bank : List BankRow) :
    (∀ r ∈ missing_payments sales bank, r.bank_ref = none)
    ∧ (∀ p ∈ variance_records sales bank, p.1.bank_ref ≠ none)
    ∧ (∀ r ∈ missing_payments sales bank, ∀ p ∈ variance_records sales bank, r ≠ p.1)
    ∧ (∀ (s : SalesRow) (b : BankRow), b.txn_id = s.txn_id → b.bank_ref = none →
        missing_payments [s] [b] = [mergeRow s b]) := by
  have hmiss : ∀ r ∈ missing_payments sales bank, r.bank_ref = none := by
    intro r hr
    have := (List.mem_filter.1 hr).2
    simpa [Option.isNone_iff_eq_none] using this
  have hvar : ∀ p ∈ variance_records sales bank, p.1.bank_ref ≠ none := by
    intro p hp
    have hm : p ∈ matched_records sales bank := (List.mem_filter.1 hp).1
    rcases List.mem_map.1 hm with ⟨r, hr, rfl⟩
    have hsome : r.bank_ref.isSome = true := (List.mem_filter.1 hr).2
    exact Option.isSome_iff_ne_none.1 hsome
  refine ⟨hmiss, hvar, ?_, ?_⟩
  · intro r hr p hp heq
    exact hvar p hp (heq ▸ hmiss r hr)
  · intro s b hid href
    have hbm : bankMatches [b] s = [b] := by
      simp [bankMatches, hid]
    have hrow : rowMerged [b] s = [mergeRow s b] := by
      unfold rowMerged
      rw [hbm]
      rfl
    unfold missing_payments
    rw [show mergeLeft [s] [b] = rowMerged [b] s from by simp [mergeLeft], hrow]
    simp [mergeRow, href, List.filter_cons]

/-- Witness for C9's theorem: a settlement with the billed id TXN-9001 but a
null bank reference puts the billed record into `missing`. -/
theorem classification_by_bank_ref_nullness_witness :
    missing_payments [⟨some "TXN-9001", "Zenith Partners", 320, "t1"⟩]
        [⟨some "TXN-9001", none, 320, "d1"⟩]
      = [⟨some "TXN-9001", "Zenith Partners", 320, "t1", none, some 320, some "d1"⟩] :=
  ((classification_by_bank_ref_nullness
      [⟨some "TXN-9001", "Zenith Partners", 320, "t1"⟩]
      [⟨some "TXN-9001", none, 320, "d1"⟩]).2.2.2
    ⟨some "TXN-9001", "Zenith Partners", 320, "t1"⟩
    ⟨some "TXN-9001", none, 320, "d1"⟩ rfl rfl).trans
    (by decide)

/-! ## Report generation and the execution pipeline -/

/-- The data shown by the executive-summary section of
`generate_forensic_report` (sentinel_core.py lines 207–221). The two sum
lines are written only inside `if not …empty` guards, so they are `Option`:
`none` means the line is absent from the report. -/
structure SummaryData where
  totalIssues : Nat
  missingCount : Nat
  varianceCount : Nat
  revenueAtRisk : Option ℚ
  revenueLeakage : Option ℚ
  deriving DecidableEq, Repr

/-- The executive-summary section of `generate_forensic_report`
(lines 207–221): unconditional counts; `missing_payments['billed_amount'].sum()`
only when `missing_payments` is non-empty; `variance_records['variance'].sum()`
only when `variance_records` is non-empty. -/
def summarySection (missing : List MergedRow) (variances : List (MergedRow × ℚ)) :
    SummaryData where
  totalIssues := missing.length + variances.length
  missingCount := missing.length
  varianceCount := variances.length
  revenueAtRisk :=
    if missing.isEmpty then none
    else some ((missing.map (fun r => r.billed_amount)).sum)
  revenueLeakage :=
    if variances.isEmpty then none
    else some ((variances.map (fun p => p.2)).sum)

/-- C8 counterexample: on an empty finding set the report's summary carries
the two counts but OMITS the revenue-at-risk and revenue-leakage sums
(their lines are inside non-emptiness guards), contradicting the claim
that the sums appear unconditionally. -/
theorem summary_sums_omitted_when_empty :
    (summarySection [] []).revenueAtRisk = none
    ∧ (summarySection [] []).revenueLeakage = none
    ∧ (summarySection [] []).missingCount = 0
    ∧ (summarySection [] []).varianceCount = 0 :=
  ⟨rfl, rfl, rfl, rfl⟩

/-- C8 (corrected): for every finding set produced by `detect_anomalies`,
the report's summary always includes the missing and variance counts; it
includes the sum of billed amounts over missing entries (revenue at risk)
exactly when `missing` is non-empty, and the sum of variances over variance
entries (revenue leakage) exactly when `variances` is non-empty; when the
corresponding sequence is empty the sum line is omitted. -/
theorem summary_counts_and_conditional_sums (sales : List SalesRow) (bank : List BankRow) :
    (summarySection (missing_payments sales bank) (variance_records sales bank)).missingCount
        = (missing_payments sales bank).length
    ∧ (summarySection (missing_payments sales bank) (variance_records sales bank)).varianceCount
        = (variance_records sales bank).length
    ∧ (missing_payments sales bank ≠ [] →
        (summarySection (missing_payments sales bank) (variance_records sales bank)).revenueAtRisk
          = some (((missing_payments sales bank).map (fun r => r.billed_amount)).sum))
    ∧ (missing_payments sales bank = [] →
        (summarySection (missing_payments sales bank) (variance_records sales bank)).revenueAtRisk
          = none)
    ∧ (variance_records sales bank ≠ [] →
        (summarySection (missing_payments sales bank) (variance_records sales bank)).revenueLeakage
          = some (((variance_records sales bank).map (fun p => p.2)).sum))
    ∧ (variance_records sales bank = [] →
        (summarySection (missing_payments sales bank) (variance_records sales bank)).revenueLeakage
          = none) := by
  refine ⟨rfl, rfl, ?_, ?_, ?_, ?_⟩ <;> intro h <;>
    simp [summarySection, List.isEmpty_iff, h]

/-- Witness for C8's theorem at the spec's Scenario C: billed TXN-1005 for
7200 with no settlements puts revenue at risk = 7200 in the summary. -/
theorem summary_counts_and_conditional_sums_witness :
    (summarySection
        (missing_payments [⟨some "TXN-1005", "Phantom LLC", 7200, "t5"⟩] [])
        (variance_records [⟨some "TXN-1005", "Phantom LLC", 7200, "t5"⟩] [])).revenueAtRisk
      = some 7200 :=
  ((summary_counts_and_conditional_sums
      [⟨some "TXN-1005", "Phantom LLC", 7200, "t5"⟩] []).2.2.1 (by decide)).trans
    (by norm_num [missing_payments, mergeLeft, rowMerged, bankMatches, unmatchedRow])

/-- `load_datasets()` (sentinel_core.py lines 50–79), modelled over the
outcomes of the two `pd.read_csv` calls (each either a parsed table or a
raised ingestion error): every exception is caught and turned into
`(None, None)`; only a double success returns the two dataframes. The
sales read happens first, so a sales failure means the bank feed is never
consulted — the result is `(None, None)` either way. -/
def load_datasets (salesSrc : Except String (List SalesRow))
    (bankSrc : Except String (List BankRow)) :
    Option (List SalesRow) × Option (List BankRow) :=
  match salesSrc, bankSrc with
  | .ok s, .ok b => (some s, some b)
  | _, _ => (none, none)

/-- The data path of `main()` (lines 235–275): load both datasets, abort
(returning no report) when either is `None`, otherwise run
`detect_anomalies` and produce the report's summary content. -/
def main_run (salesSrc : Except String (List SalesRow))
    (bankSrc : Except String (List BankRow)) :
    Option (List MergedRow × List (MergedRow × ℚ) × SummaryData) :=
  match load_datasets salesSrc bankSrc with
  | (some s, some b) =>
      some (missing_payments s b, variance_records s b,
        summarySection (missing_payments s b) (variance_records s b))
  | _ => none

/-- C10: `load_datasets` propagates no exception — any ingestion failure
yields the value `(None, None)` — and whenever either component is `None`
the pipeline aborts before reconciliation, producing no report; a run
reaches reconciliation exactly on a double success. -/
theorem load_datasets_none_on_failure (salesSrc : Except String (List SalesRow))
    (bankSrc : Except String (List BankRow)) :
    ((∃ e, salesSrc = .error e) ∨ (∃ e, bankSrc = .error e) →
        load_datasets salesSrc bankSrc = (none, none))
    ∧ ((load_datasets salesSrc bankSrc).1 = none ∨ (load_datasets salesSrc bankSrc).2 = none →
        main_run salesSrc bankSrc = none)
    ∧ (∀ s b, salesSrc = .ok s → bankSrc = .ok b →
        main_run salesSrc bankSrc
          = some (missing_payments s b, variance_records s b,
              summarySection (missing_payments s b) (variance_records s b))) := by
  refine ⟨?_, ?_, ?_⟩
  · rintro (⟨e, rfl⟩ | ⟨e, rfl⟩)
    · rfl
    · cases salesSrc <;> rfl
  · intro h
    cases salesSrc <;> cases bankSrc <;> simp_all [load_datasets, main_run]
  · rintro s b rfl rfl
    rfl

/-- Witness for C10's theorem: a failed sales read gives `(None, None)` and
an aborted run with no report. -/
theorem load_datasets_none_on_failure_witness :
    load_datasets (Except.error "sales_log.csv not found")
        (Except.ok ([] : List BankRow)) = (none, none)
    ∧ main_run (Except.error "sales_log.csv not found")
        (Except.ok ([] : List BankRow)) = none :=
  ⟨(load_datasets_none_on_failure (Except.error "sales_log.csv not found")
      (Except.ok ([] : List BankRow))).1 (Or.inl ⟨"sales_log.csv not found", rfl⟩),
   (load_datasets_none_on_failure (Except.error "sales_log.csv not found")
      (Except.ok ([] : List BankRow))).2.1 (Or.inl rfl)⟩

/-! ## IEEE-754 binary64 model for the variance computation

The `billed_amount`, `received_amount` and `variance` columns are pandas
float64 columns: `pd.read_csv` parses each decimal cell to the nearest
binary64 value, and `billed_amount - received_amount` (line 121) is a
correctly-rounded binary64 subtraction. The following integer-arithmetic
model computes exactly those values for the normal range of binary64
(no overflow or subnormal handling — monetary magnitudes are far inside
the normal range). A float is represented as a pair `(m, e) : ℤ × ℤ`
denoting the exact value `m · 2^e`. -/

/-- Powers of two as integers. -/
def pow2 (k : Nat) : Int := Int.ofNat (2 ^ k)

/-- Round the rational `num / den` (`den > 0`) to the nearest integer,
ties to even: floor quotient, then compare twice the remainder with the
divisor. -/
def rneInt (num den : Int) : Int :=
  let q := num.fdiv den
  let r := num - q * den
  if 2 * r < den then q
  else if den < 2 * r then q + 1
  else if q % 2 = 0 then q else q + 1

/-- Fuelled floor-log₂ helper: counts halvings until the argument is
below 2. The fuel (first argument) bounds the recursion depth. -/
def natLog2F : Nat → Nat → Nat
  | 0, _ => 0
  | fuel + 1, n => if n < 2 then 0 else natLog2F fuel (n / 2) + 1

/-- Floor of log₂ for positive naturals (`floorLog2 0 = 0`). -/
def floorLog2 (n : Nat) : Nat := natLog2F n n

/-- The binary64 value nearest to the rational `num / den` (`den > 0`),
with round-to-nearest, ties-to-even — what `pd.read_csv` stores for the
decimal literal `num/den` in a float64 column. The first rounding
candidate assumes the value's exponent is `⌊log₂|num|⌋ − ⌊log₂ den⌋ − 1`;
when its 53-bit mantissa overflows, the exponent is one higher and the
value is re-rounded from the exact input at the coarser granularity. -/
def f64OfRat (num den : Int) : Int × Int :=
  if num = 0 then (0, 0)
  else
    let sign : Int := if num < 0 then -1 else 1
    let a : Int := Int.ofNat num.natAbs
    let e0 : Int := (floorLog2 num.natAbs : Int) - (floorLog2 den.natAbs : Int)
    let k1 : Int := 53 - e0
    let m1 : Int :=
      if 0 ≤ k1 then rneInt (a * pow2 k1.toNat) den
      else rneInt a (den * pow2 (-k1).toNat)
    if m1 < pow2 53 then (sign * m1, -k1)
    else
      let k2 : Int := k1 - 1
      let m2 : Int :=
        if 0 ≤ k2 then rneInt (a * pow2 k2.toNat) den
        else rneInt a (den * pow2 (-k2).toNat)
      (sign * m2, -k2)

/-- Round an exact dyadic value `m · 2^e` back to a representable binary64
(53 significant bits, ties to even): the final rounding step of every
binary64 arithmetic operation. -/
def roundF64 (m e : Int) : Int × Int :=
  if m = 0 then (0, 0)
  else
    let bits : Nat := floorLog2 m.natAbs + 1
    if bits ≤ 53 then (m, e)
    else
      let sh : Nat := bits - 53
      (rneInt m (pow2 sh), e + sh)

/-- Correctly-rounded binary64 subtraction: the exact difference of the two
dyadic operands, re-rounded to 53 bits. -/
def f64Sub (x y : Int × Int) : Int × Int :=
  let e := min x.2 y.2
  let d := x.1 * pow2 (x.2 - e).toNat - y.1 * pow2 (y.2 - e).toNat
  roundF64 d e

/-- The float64 `variance` cell (line 121) for a matched row whose CSV
cells hold the exact decimals `bn/bd` (billed) and `rn/rd` (received):
both cells are parsed to binary64 by `pd.read_csv`, then subtracted in
binary64. -/
def varianceF64 (bn bd rn rd : Int) : Int × Int :=
  f64Sub (f64OfRat bn bd) (f64OfRat rn rd)

/-- The exact rational value of a binary64 pair `(m, e)`, namely `m · 2^e`. -/
def f64Val (p : Int × Int) : ℚ :=
  if 0 ≤ p.2 then (p.1 : ℚ) * ((pow2 p.2.toNat : Int) : ℚ)
  else (p.1 : ℚ) / ((pow2 (-p.2).toNat : Int) : ℚ)

/-- C2: the spec's example (billed 5000.00, received 4500.00) is exact even
in float64; but the code computes the variance in pandas float64, not in
exact decimal arithmetic, and for billed 4000.30 vs received 4000.20 the
computed variance is 54975581389 · 2⁻³⁹ = 0.1000000000003638…, not the
exact decimal 0.10 the spec requires. -/
theorem variance_float64_not_exact :
    f64Val (varianceF64 5000 1 4500 1) = 500
    ∧ f64Val (varianceF64 40003 10 40002 10) ≠ 1 / 10
    ∧ f64Val (varianceF64 40003 10 40002 10) = 54975581389 / 549755813888 := by
  have h1 : varianceF64 5000 1 4500 1 = (549755813888000, -40) := by decide
  have h2 : varianceF64 40003 10 40002 10 = (219902325556, -41) := by decide
  refine ⟨?_, ?_, ?_⟩
  · rw [h1]
    simp [f64Val, pow2]
    norm_num
  · rw [h2]
    simp [f64Val, pow2]
    norm_num
  · rw [h2]
    simp [f64Val, pow2]
    norm_num
